import Mathlib

/-!
Shallow embedding of the credit-ledger subsystem of the colpageapp
repository (src/lib/credit-utils.ts, src/app/api/credits/route.ts and
src/app/api/groovesell-webhook/route.ts), together with theorems settling
the behavioral claims about it.

Modelling conventions:
* The Supabase persistence layer is a `Store`: a list of user rows, a list
  of transaction rows, an auth-provider user list, and boolean health flags
  (`readOk` for selects, `writeOk` for inserts/updates, `logOk` for the
  transaction-log insert, `authOk` for the auth admin API). A `false` flag
  makes the corresponding call fail, modelling a store outage.
* Asynchronous TypeScript functions that may throw `CreditError` become
  pure functions returning `Except CreditError α × Store`.
* JavaScript `Date` values are modelled at month granularity: a year, a
  month index 0..11 (as returned by `getMonth()`), and an opaque `sub`
  component (day and time of day) that the operations under study never
  change. `setMonth(getMonth()+1)` and `setFullYear(getFullYear()+1)`
  become `addOneMonth` and `addOneYear` with the JS month-overflow
  normalization.
* PostgREST `.single()` succeeds exactly when one row matches; with zero
  or several matching rows it reports error code PGRST116, which
  `getUserByEmail` maps to `null` and the update paths map to a thrown
  `CreditError`.
* Numeric webhook `amount` strings are modelled by the rational value that
  `parseFloat(amount || "0")` yields, as an `Option ℚ` field.
-/

namespace ColPage

/-- Subscription period stored in the `subscription_type` column
(`monthly` or `yearly`, nullable). -/
inductive SubType
  | monthly
  | yearly
  deriving DecidableEq, Repr

/-- Subscription tier stored in the `subscription_tier` column
(`basic`, `standard` or `premium`, nullable). -/
inductive Tier
  | basic
  | standard
  | premium
  deriving DecidableEq, Repr

/-- Transaction kind stored in the `transaction_type` column of
`credit_transactions`. -/
inductive TxKind
  | purchase
  | usage
  | refund
  deriving DecidableEq, Repr

/-- JavaScript Date at month granularity: `year`/`month` mirror
`getFullYear()`/`getMonth()` (month index 0..11); `sub` is the remaining
day-and-time component, opaque here because the ledger code never edits it. -/
structure Date where
  year : Int
  month : Nat
  sub : Nat
  deriving DecidableEq, Repr

/-- Model of `d.setMonth(d.getMonth() + 1)`: JS normalizes month index 12
to January of the next year. -/
def addOneMonth (d : Date) : Date :=
  ⟨d.year + ((d.month + 1) / 12 : Nat), (d.month + 1) % 12, d.sub⟩

/-- Model of `d.setFullYear(d.getFullYear() + 1)`. -/
def addOneYear (d : Date) : Date :=
  ⟨d.year + 1, d.month, d.sub⟩

/-- Row of the `users` table (the `User` interface of `lib/supabase.ts`). -/
structure User where
  id : String
  email : String
  credits : Int
  subscription_type : Option SubType
  subscription_tier : Option Tier
  subscription_expires_at : Option Date
  updated_at : Date
  deriving DecidableEq, Repr

/-- Row of the `credit_transactions` table (the `CreditTransaction`
interface of `lib/supabase.ts`; the serial id and created_at columns are
DB-generated and never read by the code, so they are omitted). -/
structure Transaction where
  user_id : String
  amount : Int
  transaction_type : TxKind
  description : String
  deriving DecidableEq, Repr

/-- The `CreditError` class of `credit-utils.ts`: a message and a code. -/
structure CreditError where
  message : String
  code : String
  deriving DecidableEq, Repr

/-- The persistence layer: `users` and `credit_transactions` tables, the
auth provider user list (emails registered in Supabase Auth) with a
counter supplying fresh auth ids, and health flags for each kind of call. -/
structure Store where
  users : List User
  transactions : List Transaction
  authEmails : List String := []
  nextAuthId : Nat := 0
  readOk : Bool := true
  writeOk : Bool := true
  logOk : Bool := true
  authOk : Bool := true
  deriving DecidableEq, Repr

/-- `INITIAL_CREDITS` constant: no free credits. -/
def INITIAL_CREDITS : Int := 0

/-- `TRIAL_CREDITS` constant: credits given during the 1-week trial. -/
def TRIAL_CREDITS : Int := 3

/-- `MONTHLY_CREDITS` constant: credits per month after trial converts. -/
def MONTHLY_CREDITS : Int := 5

/-- `YEARLY_CREDITS` constant: 5 credits per month times 12 months. -/
def YEARLY_CREDITS : Int := 60

/-- Update every row satisfying `p` with `f`, leaving the rest unchanged:
the effect of a Supabase `update(...).eq(...)` on the `users` table. -/
def updWhere (p : User → Bool) (f : User → User) (l : List User) : List User :=
  l.map fun v => if p v then f v else v

/-- Embedding of `getUserByEmail`: select by email with `.single()`.
Exactly one matching row is returned; zero rows (and likewise several
rows) produce PostgREST error PGRST116, which the code maps to `null`.
When the store read fails the code throws a `CreditError` with code
GET_USER_ERROR. -/
def getUserByEmail (s : Store) (email : String) : Except CreditError (Option User) :=
  if s.readOk then
    match s.users.filter (fun v => v.email == email) with
    | [u] => .ok (some u)
    | _ => .ok none
  else
    .error ⟨"Failed to get user: store unreachable", "GET_USER_ERROR"⟩

/-- Embedding of `createUser`: insert a row with the given id and email,
`INITIAL_CREDITS` credits and null subscription fields. A write outage or
a unique-key violation (duplicate email or id) surfaces as a
CREATE_USER_ERROR. -/
def createUser (s : Store) (id email : String) (now : Date) :
    Except CreditError User × Store :=
  if s.writeOk then
    if s.users.any (fun v => v.email == email || v.id == id) then
      (.error ⟨"Failed to create user: duplicate key", "CREATE_USER_ERROR"⟩, s)
    else
      let u : User := ⟨id, email, INITIAL_CREDITS, none, none, none, now⟩
      (.ok u, { s with users := s.users ++ [u] })
  else
    (.error ⟨"Failed to create user: store unreachable", "CREATE_USER_ERROR"⟩, s)

/-- Embedding of `logCreditTransaction`: append a row to
`credit_transactions`; a failure is logged and swallowed, so this never
throws and a failed insert simply leaves the store unchanged. -/
def logCreditTransaction (s : Store) (userId : String) (amount : Int)
    (t : TxKind) (description : String) : Store :=
  if s.logOk then
    { s with transactions := s.transactions ++ [⟨userId, amount, t, description⟩] }
  else s

/-- Embedding of `hasEnoughCredits`: false when no account matches, the
comparison `user.credits >= requiredCredits` when one does, and true
(fail-open) when the underlying read throws. Total by construction: the
catch-all in the source swallows every error. -/
def hasEnoughCredits (s : Store) (email : String) (requiredCredits : Int) : Bool :=
  match getUserByEmail s email with
  | .error _ => true
  | .ok none => false
  | .ok (some u) => requiredCredits ≤ u.credits

/-- Embedding of `getCreditBalance`: the credits of the matching account,
0 when no account matches, and 0 (fail-safe) when the read throws. -/
def getCreditBalance (s : Store) (email : String) : Int :=
  match getUserByEmail s email with
  | .error _ => 0
  | .ok none => 0
  | .ok (some u) => u.credits

/-- Embedding of `useCredits`: read the account, throw USER_NOT_FOUND or
INSUFFICIENT_CREDITS, otherwise update `credits` to the previously read
value minus `amount` on every row with this email, require `.single()`
to see exactly one updated row, then append a `usage` transaction of the
negated amount (log failures swallowed). -/
def useCredits (s : Store) (email : String) (amount : Int) (now : Date) :
    Except CreditError User × Store :=
  match getUserByEmail s email with
  | .error e => (.error e, s)
  | .ok none => (.error ⟨"User not found", "USER_NOT_FOUND"⟩, s)
  | .ok (some user) =>
    if user.credits < amount then
      (.error ⟨"Insufficient credits", "INSUFFICIENT_CREDITS"⟩, s)
    else if s.writeOk then
      let p : User → Bool := fun v => v.email == email
      let f : User → User := fun v =>
        { v with credits := user.credits - amount, updated_at := now }
      let s1 : Store := { s with users := updWhere p f s.users }
      match s.users.filter p with
      | [_] =>
        (.ok { user with credits := user.credits - amount, updated_at := now },
         logCreditTransaction s1 user.id (-amount) .usage "Image generation")
      | _ => (.error ⟨"Failed to use credits", "USE_CREDITS_ERROR"⟩, s1)
    else
      (.error ⟨"Failed to use credits: store unreachable", "USE_CREDITS_ERROR"⟩, s)

/-- The row update `addCredits` applies: credits become the previously
read balance plus `amount`; when a subscription period is supplied the
`subscription_type` and a recomputed `subscription_expires_at` (now plus
one month or one year) are also written; otherwise those columns are not
in the update payload and stay unchanged. -/
def applyCredit (user : User) (amount : Int) (st : Option SubType) (now : Date)
    (v : User) : User :=
  match st with
  | none => { v with credits := user.credits + amount, updated_at := now }
  | some .monthly =>
    { v with credits := user.credits + amount, updated_at := now,
             subscription_type := some .monthly,
             subscription_expires_at := some (addOneMonth now) }
  | some .yearly =>
    { v with credits := user.credits + amount, updated_at := now,
             subscription_type := some .yearly,
             subscription_expires_at := some (addOneYear now) }

/-- Description string of the purchase transaction `addCredits` logs. -/
def purchaseDescription (st : Option SubType) : String :=
  match st with
  | none => "manual credit purchase"
  | some .monthly => "monthly credit purchase"
  | some .yearly => "yearly credit purchase"

/-- Second half of `addCredits` once an account row is in hand: update the
row selected by id, require `.single()` to see exactly one updated row,
then append a `purchase` transaction (log failures swallowed). -/
def addCreditsTo (s : Store) (user : User) (amount : Int) (st : Option SubType)
    (now : Date) : Except CreditError User × Store :=
  if s.writeOk then
    let p : User → Bool := fun v => v.id == user.id
    let s1 : Store := { s with users := updWhere p (applyCredit user amount st now) s.users }
    match s.users.filter p with
    | [_] =>
      (.ok (applyCredit user amount st now user),
       logCreditTransaction s1 user.id amount .purchase (purchaseDescription st))
    | _ => (.error ⟨"Failed to add credits", "ADD_CREDITS_ERROR"⟩, s1)
  else
    (.error ⟨"Failed to add credits: store unreachable", "ADD_CREDITS_ERROR"⟩, s)

/-- Embedding of `addCredits`: resolve the account by email; if absent and
an auth user id was supplied, create the row with that id; if absent
otherwise, throw USER_NOT_FOUND; then apply the credit update and log a
`purchase` transaction. -/
def addCredits (s : Store) (email : String) (amount : Int) (st : Option SubType)
    (authUserId : Option String) (now : Date) : Except CreditError User × Store :=
  match getUserByEmail s email with
  | .error e => (.error e, s)
  | .ok none =>
    match authUserId with
    | some aid =>
      match createUser s aid email now with
      | (.error e, s1) => (.error e, s1)
      | (.ok user, s1) => addCreditsTo s1 user amount st now
    | none =>
      (.error ⟨"User not found and no auth ID provided", "USER_NOT_FOUND"⟩, s)
  | .ok (some user) => addCreditsTo s user amount st now

/-! Webhook layer: the parsed request body, the HTTP response shape, and
the two POST handlers (`app/api/groovesell-webhook/route.ts` and
`app/api/credits/route.ts`). -/

/-- Parsed JSON body of an inbound webhook or API request. Absent fields
are `none`; `amount` holds the rational value that
`parseFloat(amount || "0")` would produce from the raw string. -/
structure WebhookBody where
  event : Option String := none
  buyer_email : Option String := none
  product_id : Option String := none
  subscription_type : Option String := none
  amount : Option ℚ := none
  trial_transaction : Option Int := none
  password : Option String := none
  action : Option String := none
  deriving DecidableEq, Repr

/-- Model of `parseFloat(amount || "0")`. -/
def parseFloatOr0 (a : Option ℚ) : ℚ := a.getD 0

/-- HTTP JSON response: the status code (200 unless set explicitly), the
presence of a `success: true` field, and the message or error text. -/
structure Resp where
  status : Nat
  success : Bool
  message : String
  deriving DecidableEq, Repr

/-- Per-product configuration of the `PRODUCT_TIER_MAPPING` table in the
groovesell-webhook route. -/
structure ProductConfig where
  tier : Tier
  monthlyCredits : Int
  yearlyCredits : Int
  deriving DecidableEq, Repr

/-- The `PRODUCT_TIER_MAPPING` table: product id 90143 is basic (5/60),
90211 standard (10/120), 90212 premium (30/360); anything else unknown. -/
def PRODUCT_TIER_MAPPING (productId : String) : Option ProductConfig :=
  if productId = "90143" then some ⟨.basic, 5, 60⟩
  else if productId = "90211" then some ⟨.standard, 10, 120⟩
  else if productId = "90212" then some ⟨.premium, 30, 360⟩
  else none

/-- Embedding of `signUpUser`. Without a password: look up the existing
ledger row and return its id (or null). With a password: call the auth
admin createUser; if the email is already registered, fall back to the
ledger row id; otherwise a fresh auth user is created and its new id
returned. An unreachable auth admin API throws SIGNUP_USER_ERROR. -/
def signUpUser (s : Store) (email : String) (password : Option String) :
    Except CreditError (Option String) × Store :=
  match password with
  | none =>
    match getUserByEmail s email with
    | .error e => (.error e, s)
    | .ok u => (.ok (u.map (fun v => v.id)), s)
  | some _ =>
    if s.authOk then
      if s.authEmails.contains email then
        match getUserByEmail s email with
        | .error e => (.error e, s)
        | .ok u => (.ok (u.map (fun v => v.id)), s)
      else
        (.ok (some ("auth-" ++ toString s.nextAuthId)),
         { s with authEmails := email :: s.authEmails,
                  nextAuthId := s.nextAuthId + 1 })
    else
      (.error ⟨"Failed to sign up user: auth unreachable", "SIGNUP_USER_ERROR"⟩, s)

/-- The inline `supabaseAdmin.from(users).update({subscription_tier})`
call the groovesell handler performs after `addCredits`: set the tier on
the row selected by id; any error is logged and swallowed, so a write
outage leaves the store unchanged and nothing is thrown. -/
def setTierById (s : Store) (uid : String) (tier : Tier) (now : Date) : Store :=
  if s.writeOk then
    let f : User → User := fun v => { v with subscription_tier := some tier, updated_at := now }
    { s with users := updWhere (fun v => v.id == uid) f s.users }
  else s

/-- Catch-all response of the groovesell-webhook POST handler: always a
success-shaped 200 body, to prevent sender retries. -/
def groovesellCatchResp : Resp :=
  ⟨200, true, "Webhook received (error in processing)"⟩

/-- Embedding of the groovesell-webhook `POST` handler. Validation first:
missing email or product id, then an unknown product id, answer 400. A
subscription-trial-start event with trial_transaction equal to 1 signs up
the auth user (errors swallowed), adds `TRIAL_CREDITS` with no
subscription period, then sets the subscription tier from the product
mapping (errors swallowed). A subscription-payment event with positive
amount adds the tier-mapped monthly or yearly credits with the matching
period, then sets the tier. Every other event is acknowledged and
ignored. A `CreditError` escaping processing is answered with the
success-shaped catch-all response. -/
def groovesellPOST (s : Store) (b : WebhookBody) (now : Date) : Resp × Store :=
  match b.buyer_email, b.product_id with
  | some email, some productId =>
    match PRODUCT_TIER_MAPPING productId with
    | none => (⟨400, false, "Unknown product ID: " ++ productId⟩, s)
    | some cfg =>
      if b.event = some "subscription-trial-start" ∧ b.trial_transaction = some 1 then
        let su := signUpUser s email b.password
        let authUserId : Option String :=
          match su.1 with
          | .ok i => i
          | .error _ => none
        match addCredits su.2 email TRIAL_CREDITS none authUserId now with
        | (.error _, s2) => (groovesellCatchResp, s2)
        | (.ok u, s2) =>
          (⟨200, true, "Trial started: 3 credits added"⟩,
           setTierById s2 u.id cfg.tier now)
      else if b.event = some "subscription-payment" ∧ 0 < parseFloatOr0 b.amount then
        let creditsToAdd : Int :=
          if b.subscription_type = some "Yearly" then cfg.yearlyCredits
          else cfg.monthlyCredits
        let stForDb : SubType :=
          if b.subscription_type = some "Yearly" then .yearly else .monthly
        match addCredits s email creditsToAdd (some stForDb) none now with
        | (.error _, s2) => (groovesellCatchResp, s2)
        | (.ok u, s2) =>
          (⟨200, true, "Subscription payment: credits added"⟩,
           setTierById s2 u.id cfg.tier now)
      else
        (⟨200, true, "Event acknowledged but not processed"⟩, s)
  | _, _ => (⟨400, false, "Missing required fields"⟩, s)

/-- Shared tail of the credits-route `POST` handler once the credit
amount and period are chosen: `signUpUser` (not caught locally), then
`addCredits`; a `CreditError` from either propagates to the outer catch,
which answers with a 500 error response. -/
def creditsGrant (s : Store) (email : String) (password : Option String)
    (creditsToAdd : Int) (st : Option SubType) (now : Date) : Resp × Store :=
  match signUpUser s email password with
  | (.error e, s1) => (⟨500, false, e.message⟩, s1)
  | (.ok authUserId, s1) =>
    match addCredits s1 email creditsToAdd st authUserId now with
    | (.error e, s2) => (⟨500, false, e.message⟩, s2)
    | (.ok _, s2) => (⟨200, true, "Added credits"⟩, s2)

/-- Embedding of the credits-route `POST` handler
(`app/api/credits/route.ts`). Missing email answers 400. The get_balance
action answers the balance. With an event or the add_credits action: a
subscription-trial-start event grants `TRIAL_CREDITS` with no period; a
subscription-payment event with positive amount grants `MONTHLY_CREDITS`
with a monthly period; the manual add_credits action grants by requested
period; any other event is acknowledged and ignored. Errors thrown during
granting reach the outer catch, which answers 500 with the error text. -/
def creditsPOST (s : Store) (b : WebhookBody) (now : Date) : Resp × Store :=
  match b.buyer_email with
  | none => (⟨400, false, "Email is required"⟩, s)
  | some email =>
    if b.action = some "get_balance" then
      (⟨200, false, "credits: " ++ toString (getCreditBalance s email)⟩, s)
    else if b.event.isSome ∨ b.action = some "add_credits" then
      if b.event = some "subscription-trial-start" then
        creditsGrant s email b.password TRIAL_CREDITS none now
      else if b.event = some "subscription-payment" ∧ 0 < parseFloatOr0 b.amount then
        creditsGrant s email b.password MONTHLY_CREDITS (some .monthly) now
      else if b.action = some "add_credits" then
        if b.subscription_type = some "trial" then
          creditsGrant s email b.password TRIAL_CREDITS none now
        else if b.subscription_type = some "monthly" then
          creditsGrant s email b.password MONTHLY_CREDITS (some .monthly) now
        else if b.subscription_type = some "yearly" then
          creditsGrant s email b.password YEARLY_CREDITS (some .yearly) now
        else
          creditsGrant s email b.password TRIAL_CREDITS none now
      else
        (⟨200, true, "Event ignored - no credits added"⟩, s)
    else
      (⟨400, false, "Invalid request - no valid action or event found"⟩, s)

/-! Helper lemmas about filtering and updating the users table when the
store is decomposed as `pre ++ u :: post` with `u` the unique row
satisfying the lookup predicate. -/

/-- Filtering a list in which no element satisfies `p` yields the empty
list. -/
lemma filter_eq_nil_of_false {α : Type} {p : α → Bool} {l : List α}
    (h : ∀ v ∈ l, p v = false) : l.filter p = [] := by
  induction l with
  | nil => rfl
  | cons a t ih =>
    have ha := h a (by simp)
    simp only [List.filter_cons, ha, Bool.false_eq_true, if_false]
    exact ih fun v hv => h v (by simp [hv])

/-- Filtering `pre ++ u :: post` where only `u` satisfies `p` yields
exactly `[u]`: the situation in which PostgREST `.single()` succeeds. -/
lemma filter_single {α : Type} {p : α → Bool} {pre post : List α} {u : α}
    (hpre : ∀ v ∈ pre, p v = false) (hpost : ∀ v ∈ post, p v = false)
    (hu : p u = true) :
    (pre ++ u :: post).filter p = [u] := by
  rw [List.filter_append, filter_eq_nil_of_false hpre, List.filter_cons]
  simp only [hu, if_true, List.nil_append]
  rw [filter_eq_nil_of_false hpost]

/-- Mapping `if p v then f v else v` over a list in which no element
satisfies `p` leaves it unchanged. -/
lemma map_ite_of_false {α : Type} {p : α → Bool} {f : α → α} {l : List α}
    (h : ∀ v ∈ l, p v = false) :
    l.map (fun v => if p v then f v else v) = l := by
  induction l with
  | nil => rfl
  | cons a t ih =>
    have ha := h a (by simp)
    simp only [List.map_cons, ha, Bool.false_eq_true, if_false]
    rw [ih fun v hv => h v (by simp [hv])]

/-- A Supabase row update on `pre ++ u :: post` where only `u` matches the
predicate rewrites exactly the row `u`. -/
lemma updWhere_single {p : User → Bool} {f : User → User} {pre post : List User} {u : User}
    (hpre : ∀ v ∈ pre, p v = false) (hpost : ∀ v ∈ post, p v = false)
    (hu : p u = true) :
    updWhere p f (pre ++ u :: post) = pre ++ f u :: post := by
  unfold updWhere
  rw [List.map_append, List.map_cons]
  rw [map_ite_of_false hpre, map_ite_of_false hpost]
  simp only [hu, if_true]

/-- The email-lookup predicate is false on every row whose email differs. -/
lemma email_pred_false {e : String} {l : List User}
    (h : ∀ v ∈ l, v.email ≠ e) : ∀ v ∈ l, (v.email == e) = false := by
  intro v hv
  exact beq_eq_false_iff_ne.mpr (h v hv)

/-- The id-lookup predicate is false on every row whose id differs. -/
lemma id_pred_false {i : String} {l : List User}
    (h : ∀ v ∈ l, v.id ≠ i) : ∀ v ∈ l, (v.id == i) = false := by
  intro v hv
  exact beq_eq_false_iff_ne.mpr (h v hv)

/-- `getUserByEmail` on a healthy read against a store holding exactly one
row with the email returns that row. -/
lemma getUserByEmail_found (s : Store) (e : String) (pre post : List User) (u : User)
    (hr : s.readOk = true)
    (hs : s.users = pre ++ u :: post) (hue : u.email = e)
    (hothers : ∀ v ∈ pre ++ post, v.email ≠ e) :
    getUserByEmail s e = .ok (some u) := by
  have hfil : (pre ++ u :: post).filter (fun v => v.email == e) = [u] :=
    filter_single
      (email_pred_false fun v hv => hothers v (by simp [hv]))
      (email_pred_false fun v hv => hothers v (by simp [hv]))
      (by simp [hue])
  unfold getUserByEmail
  rw [hs, hr]
  simp only [if_true, hfil]

/-- `getUserByEmail` on a healthy read against a store holding no row with
the email returns null. -/
lemma getUserByEmail_absent {s : Store} {e : String}
    (hr : s.readOk = true) (habs : ∀ v ∈ s.users, v.email ≠ e) :
    getUserByEmail s e = .ok none := by
  unfold getUserByEmail
  rw [hr]
  simp only [if_true, filter_eq_nil_of_false (email_pred_false habs)]

/-- `getCreditBalance` reads the unique matching row. -/
lemma getCreditBalance_found (s : Store) (e : String) (pre post : List User) (u : User)
    (hr : s.readOk = true)
    (hs : s.users = pre ++ u :: post) (hue : u.email = e)
    (hothers : ∀ v ∈ pre ++ post, v.email ≠ e) :
    getCreditBalance s e = u.credits := by
  unfold getCreditBalance
  rw [getUserByEmail_found s e pre post u hr hs hue hothers]

/-- Core success lemma for `useCredits`: on a fully healthy store holding
exactly one row with the email and enough credits, the call returns the
updated row, persists the decremented balance on that row only, and
appends exactly one usage transaction of the negated amount. -/
lemma useCredits_ok (s : Store) (e : String) (A : Int) (now : Date)
    (pre post : List User) (u : User)
    (hr : s.readOk = true) (hw : s.writeOk = true) (hl : s.logOk = true)
    (hs : s.users = pre ++ u :: post) (hue : u.email = e)
    (hothers : ∀ v ∈ pre ++ post, v.email ≠ e)
    (hA : A ≤ u.credits) :
    useCredits s e A now =
      (.ok { u with credits := u.credits - A, updated_at := now },
       { s with
          users := pre ++ { u with credits := u.credits - A, updated_at := now } :: post,
          transactions := s.transactions ++ [⟨u.id, -A, .usage, "Image generation"⟩] }) := by
  have hprf : ∀ v ∈ pre, (v.email == e) = false :=
    email_pred_false fun v hv => hothers v (by simp [hv])
  have hpof : ∀ v ∈ post, (v.email == e) = false :=
    email_pred_false fun v hv => hothers v (by simp [hv])
  have hupd :
      updWhere (fun v => v.email == e)
        (fun v => { v with credits := u.credits - A, updated_at := now })
        (pre ++ u :: post)
      = pre ++ { u with credits := u.credits - A, updated_at := now } :: post :=
    updWhere_single hprf hpof (by simp [hue])
  have hfil : (pre ++ u :: post).filter (fun v => v.email == e) = [u] :=
    filter_single hprf hpof (by simp [hue])
  unfold useCredits
  rw [getUserByEmail_found s e pre post u hr hs hue hothers]
  simp only [not_lt.mpr hA, if_false, hw, if_true, hs, hupd, hfil,
    logCreditTransaction, hl]

/-- Core success lemma for `addCredits` against an existing account: on a
fully healthy store holding exactly one row with the email (and no other
row with its id), the call returns the row updated by `applyCredit`,
persists it, and appends exactly one purchase transaction of the amount,
whatever auth user id is passed. -/
lemma addCredits_ok (s : Store) (e : String) (N : Int) (st : Option SubType)
    (now : Date) (pre post : List User) (u : User) (authUserId : Option String)
    (hr : s.readOk = true) (hw : s.writeOk = true) (hl : s.logOk = true)
    (hs : s.users = pre ++ u :: post) (hue : u.email = e)
    (hothers : ∀ v ∈ pre ++ post, v.email ≠ e ∧ v.id ≠ u.id) :
    addCredits s e N st authUserId now =
      (.ok (applyCredit u N st now u),
       { s with
          users := pre ++ applyCredit u N st now u :: post,
          transactions := s.transactions ++ [⟨u.id, N, .purchase, purchaseDescription st⟩] }) := by
  have hprf : ∀ v ∈ pre, (v.id == u.id) = false :=
    id_pred_false fun v hv => (hothers v (by simp [hv])).2
  have hpof : ∀ v ∈ post, (v.id == u.id) = false :=
    id_pred_false fun v hv => (hothers v (by simp [hv])).2
  have hupd :
      updWhere (fun v => v.id == u.id) (applyCredit u N st now) (pre ++ u :: post)
      = pre ++ applyCredit u N st now u :: post :=
    updWhere_single hprf hpof (by simp)
  have hfil : (pre ++ u :: post).filter (fun v => v.id == u.id) = [u] :=
    filter_single hprf hpof (by simp)
  unfold addCredits
  rw [getUserByEmail_found s e pre post u hr hs hue (fun v hv => (hothers v hv).1)]
  unfold addCreditsTo
  simp only [hw, if_true, hs, hupd, hfil, logCreditTransaction, hl]

/-- `useCredits` on a healthy read with no matching account throws
USER_NOT_FOUND and leaves the store untouched. -/
lemma useCredits_notFound {s : Store} {e : String} {A : Int} {now : Date}
    (hr : s.readOk = true) (habs : ∀ v ∈ s.users, v.email ≠ e) :
    useCredits s e A now = (.error ⟨"User not found", "USER_NOT_FOUND"⟩, s) := by
  unfold useCredits
  rw [getUserByEmail_absent hr habs]

/-- `useCredits` on a healthy read with a matching account of lower
balance throws INSUFFICIENT_CREDITS and leaves the store untouched. -/
lemma useCredits_insufficient {s : Store} {e : String} {A : Int} {now : Date}
    {pre post : List User} {u : User}
    (hr : s.readOk = true)
    (hs : s.users = pre ++ u :: post) (hue : u.email = e)
    (hothers : ∀ v ∈ pre ++ post, v.email ≠ e)
    (hA : u.credits < A) :
    useCredits s e A now = (.error ⟨"Insufficient credits", "INSUFFICIENT_CREDITS"⟩, s) := by
  unfold useCredits
  rw [getUserByEmail_found s e pre post u hr hs hue hothers]
  simp only [hA, if_true]

/-- Credits column written by `applyCredit`: previous balance plus the
amount, whatever the optional period. -/
lemma applyCredit_credits (u : User) (N : Int) (st : Option SubType) (now : Date) :
    (applyCredit u N st now u).credits = u.credits + N := by
  rcases st with _ | st
  · rfl
  · cases st <;> rfl

/-- The update written by `applyCredit` never touches the email column. -/
lemma applyCredit_email (u : User) (N : Int) (st : Option SubType) (now : Date) :
    (applyCredit u N st now u).email = u.email := by
  rcases st with _ | st
  · rfl
  · cases st <;> rfl

/-- The update written by `applyCredit` never touches the id column. -/
lemma applyCredit_id (u : User) (N : Int) (st : Option SubType) (now : Date) :
    (applyCredit u N st now u).id = u.id := by
  rcases st with _ | st
  · rfl
  · cases st <;> rfl

/-! Concrete sample data used by the witness and counterexample
theorems. -/

/-- Sample timestamp (October 2026 in JS month indexing). -/
def sampleDate : Date := ⟨2026, 9, 12⟩

/-- Sample ledger row: account a@x.com with 5 credits and no
subscription state. -/
def sampleUser : User := ⟨"u1", "a@x.com", 5, none, none, none, sampleDate⟩

/-- Sample healthy store holding exactly the sample account and an empty
transaction log. -/
def sampleStore : Store := { users := [sampleUser], transactions := [] }

/-- The sample store during a simulated outage of the read path. -/
def outageStore : Store := { users := [sampleUser], transactions := [], readOk := false }

/-! Claim theorems. -/

/-- C1: for every account with balance B and every amount A with B ≥ A,
`useCredits(email, A)` succeeds, persists the new balance B − A, appends
exactly one usage transaction record with amount −A, and returns the
updated account. The store is decomposed as `pre ++ u :: post` with `u`
the unique row carrying the email, and all health flags hold. -/
theorem useCredits_success_spec
    (s : Store) (e : String) (A : Int) (now : Date) (pre post : List User) (u : User)
    (hr : s.readOk = true) (hw : s.writeOk = true) (hl : s.logOk = true)
    (hs : s.users = pre ++ u :: post) (hue : u.email = e)
    (hothers : ∀ v ∈ pre ++ post, v.email ≠ e)
    (hA : A ≤ u.credits) :
    useCredits s e A now =
      (.ok { u with credits := u.credits - A, updated_at := now },
       { s with
          users := pre ++ { u with credits := u.credits - A, updated_at := now } :: post,
          transactions := s.transactions ++ [⟨u.id, -A, .usage, "Image generation"⟩] })
    ∧ getCreditBalance (useCredits s e A now).2 e = u.credits - A := by
  have h := useCredits_ok s e A now pre post u hr hw hl hs hue hothers hA
  refine ⟨h, ?_⟩
  rw [h]
  exact getCreditBalance_found _ e pre post
    { u with credits := u.credits - A, updated_at := now } hr rfl hue hothers

/-- Witness for C1 at the sample store: debiting 2 of 5 credits. -/
theorem useCredits_success_spec_witness :
    useCredits sampleStore "a@x.com" 2 sampleDate =
      (.ok { sampleUser with credits := sampleUser.credits - 2, updated_at := sampleDate },
       { sampleStore with
          users := [{ sampleUser with credits := sampleUser.credits - 2, updated_at := sampleDate }],
          transactions := sampleStore.transactions ++
            [⟨sampleUser.id, -2, .usage, "Image generation"⟩] })
    ∧ getCreditBalance (useCredits sampleStore "a@x.com" 2 sampleDate).2 "a@x.com"
        = sampleUser.credits - 2 :=
  useCredits_success_spec sampleStore "a@x.com" 2 sampleDate [] [] sampleUser
    rfl rfl rfl rfl rfl (by simp) (by decide)

/-- C2: against a healthy store, `useCredits` fails exactly when the
account is absent (USER_NOT_FOUND) or its balance is below the amount
(INSUFFICIENT_CREDITS); both failures return the store unchanged — no
balance change, no account created, no transaction appended — and with
sufficient balance the call succeeds. -/
theorem useCredits_failure_spec
    (s : Store) (e : String) (A : Int) (now : Date)
    (hr : s.readOk = true) (hw : s.writeOk = true) (hl : s.logOk = true) :
    ((∀ v ∈ s.users, v.email ≠ e) →
      useCredits s e A now = (.error ⟨"User not found", "USER_NOT_FOUND"⟩, s))
    ∧ (∀ pre u post, s.users = pre ++ u :: post → u.email = e →
        (∀ v ∈ pre ++ post, v.email ≠ e) →
        (u.credits < A →
          useCredits s e A now = (.error ⟨"Insufficient credits", "INSUFFICIENT_CREDITS"⟩, s))
        ∧ (A ≤ u.credits → ∃ u', (useCredits s e A now).1 = .ok u')) := by
  refine ⟨fun habs => useCredits_notFound hr habs, fun pre u post hs hue hothers => ⟨?_, ?_⟩⟩
  · exact fun hA => useCredits_insufficient hr hs hue hothers hA
  · intro hA
    exact ⟨_, by rw [useCredits_ok s e A now pre post u hr hw hl hs hue hothers hA]⟩

/-- Witness for C2 at the sample store: unknown email fails
USER_NOT_FOUND, overdraft fails INSUFFICIENT_CREDITS, both leaving the
store unchanged, and an affordable debit succeeds. -/
theorem useCredits_failure_spec_witness :
    useCredits sampleStore "ghost@x.com" 1 sampleDate
      = (.error ⟨"User not found", "USER_NOT_FOUND"⟩, sampleStore)
    ∧ useCredits sampleStore "a@x.com" 10 sampleDate
      = (.error ⟨"Insufficient credits", "INSUFFICIENT_CREDITS"⟩, sampleStore)
    ∧ ∃ u', (useCredits sampleStore "a@x.com" 2 sampleDate).1 = .ok u' :=
  ⟨(useCredits_failure_spec sampleStore "ghost@x.com" 1 sampleDate rfl rfl rfl).1
      (by decide),
   ((useCredits_failure_spec sampleStore "a@x.com" 10 sampleDate rfl rfl rfl).2
      [] sampleUser [] rfl rfl (by simp)).1 (by decide),
   ((useCredits_failure_spec sampleStore "a@x.com" 2 sampleDate rfl rfl rfl).2
      [] sampleUser [] rfl rfl (by simp)).2 (by decide)⟩

/-- C3: `hasEnoughCredits` is a total boolean function (the source
swallows every thrown error), returns true on a failed store read
(fail-open), false when no account matches against a healthy store, and
the comparison balance ≥ required when the account exists. -/
theorem hasEnoughCredits_spec (s : Store) (e : String) (r : Int) :
    (s.readOk = false → hasEnoughCredits s e r = true)
    ∧ (s.readOk = true → (∀ v ∈ s.users, v.email ≠ e) → hasEnoughCredits s e r = false)
    ∧ (∀ pre u post, s.readOk = true → s.users = pre ++ u :: post → u.email = e →
        (∀ v ∈ pre ++ post, v.email ≠ e) →
        hasEnoughCredits s e r = decide (r ≤ u.credits)) := by
  refine ⟨fun hr => ?_, fun hr habs => ?_, fun pre u post hr hs hue hothers => ?_⟩
  · unfold hasEnoughCredits getUserByEmail
    rw [hr]
    rfl
  · unfold hasEnoughCredits
    rw [getUserByEmail_absent hr habs]
  · unfold hasEnoughCredits
    rw [getUserByEmail_found s e pre post u hr hs hue hothers]

/-- Witness for C3: outage yields true, unknown email yields false,
the sample account with 5 credits passes a requirement of 1. -/
theorem hasEnoughCredits_spec_witness :
    hasEnoughCredits outageStore "ghost@x.com" 1 = true
    ∧ hasEnoughCredits sampleStore "ghost@x.com" 1 = false
    ∧ hasEnoughCredits sampleStore "a@x.com" 1 = decide ((1 : Int) ≤ sampleUser.credits) :=
  ⟨(hasEnoughCredits_spec outageStore "ghost@x.com" 1).1 rfl,
   (hasEnoughCredits_spec sampleStore "ghost@x.com" 1).2.1 rfl (by decide),
   (hasEnoughCredits_spec sampleStore "a@x.com" 1).2.2 [] sampleUser [] rfl rfl rfl
     (by simp)⟩

/-- C4: `getCreditBalance` is a total integer function (the source
swallows every thrown error), returns 0 on a failed store read, 0 when no
account matches against a healthy store, and the stored balance when the
account exists. -/
theorem getCreditBalance_spec (s : Store) (e : String) :
    (s.readOk = false → getCreditBalance s e = 0)
    ∧ (s.readOk = true → (∀ v ∈ s.users, v.email ≠ e) → getCreditBalance s e = 0)
    ∧ (∀ pre u post, s.readOk = true → s.users = pre ++ u :: post → u.email = e →
        (∀ v ∈ pre ++ post, v.email ≠ e) →
        getCreditBalance s e = u.credits) := by
  refine ⟨fun hr => ?_, fun hr habs => ?_, fun pre u post hr hs hue hothers => ?_⟩
  · unfold getCreditBalance getUserByEmail
    rw [hr]
    rfl
  · unfold getCreditBalance
    rw [getUserByEmail_absent hr habs]
  · exact getCreditBalance_found s e pre post u hr hs hue hothers

/-- Witness for C4: outage yields 0, unknown email yields 0, the sample
account yields its stored balance. -/
theorem getCreditBalance_spec_witness :
    getCreditBalance outageStore "a@x.com" = 0
    ∧ getCreditBalance sampleStore "ghost@x.com" = 0
    ∧ getCreditBalance sampleStore "a@x.com" = sampleUser.credits :=
  ⟨(getCreditBalance_spec outageStore "a@x.com").1 rfl,
   (getCreditBalance_spec sampleStore "ghost@x.com").2.1 rfl (by decide),
   (getCreditBalance_spec sampleStore "a@x.com").2.2 [] sampleUser [] rfl rfl rfl
     (by simp)⟩

/-- C5: for every existing account with prior balance B,
`addCredits(email, N, subscriptionPeriod?)` persists balance B + N and
appends one purchase transaction of amount +N; a supplied monthly period
sets `subscription_type = monthly` and expiry one month from now, a
yearly period sets `subscription_type = yearly` and expiry one year from
now, and with no period the subscription columns stay unchanged. -/
theorem addCredits_spec
    (s : Store) (e : String) (N : Int) (st : Option SubType) (now : Date)
    (pre post : List User) (u : User)
    (hr : s.readOk = true) (hw : s.writeOk = true) (hl : s.logOk = true)
    (hs : s.users = pre ++ u :: post) (hue : u.email = e)
    (hothers : ∀ v ∈ pre ++ post, v.email ≠ e ∧ v.id ≠ u.id) :
    addCredits s e N st none now =
      (.ok (applyCredit u N st now u),
       { s with
          users := pre ++ applyCredit u N st now u :: post,
          transactions := s.transactions ++
            [⟨u.id, N, .purchase, purchaseDescription st⟩] })
    ∧ (applyCredit u N st now u).credits = u.credits + N
    ∧ getCreditBalance (addCredits s e N st none now).2 e = u.credits + N
    ∧ (st = none →
        (applyCredit u N st now u).subscription_type = u.subscription_type
        ∧ (applyCredit u N st now u).subscription_tier = u.subscription_tier
        ∧ (applyCredit u N st now u).subscription_expires_at = u.subscription_expires_at)
    ∧ (st = some .monthly →
        (applyCredit u N st now u).subscription_type = some .monthly
        ∧ (applyCredit u N st now u).subscription_expires_at = some (addOneMonth now))
    ∧ (st = some .yearly →
        (applyCredit u N st now u).subscription_type = some .yearly
        ∧ (applyCredit u N st now u).subscription_expires_at = some (addOneYear now)) := by
  have h := addCredits_ok s e N st now pre post u none hr hw hl hs hue hothers
  refine ⟨h, applyCredit_credits u N st now, ?_, ?_, ?_, ?_⟩
  · rw [h]
    have hb := getCreditBalance_found
      { s with
          users := pre ++ applyCredit u N st now u :: post,
          transactions := s.transactions ++
            [⟨u.id, N, .purchase, purchaseDescription st⟩] }
      e pre post (applyCredit u N st now u)
      hr rfl ((applyCredit_email u N st now).trans hue)
      (fun v hv => (hothers v hv).1)
    rw [hb, applyCredit_credits]
  · rintro rfl
    exact ⟨rfl, rfl, rfl⟩
  · rintro rfl
    exact ⟨rfl, rfl⟩
  · rintro rfl
    exact ⟨rfl, rfl⟩

/-- Witness for C5: adding 5 monthly credits to the sample account. -/
theorem addCredits_spec_witness :
    addCredits sampleStore "a@x.com" 5 (some .monthly) none sampleDate =
      (.ok (applyCredit sampleUser 5 (some .monthly) sampleDate sampleUser),
       { sampleStore with
          users := [applyCredit sampleUser 5 (some .monthly) sampleDate sampleUser],
          transactions := sampleStore.transactions ++
            [⟨sampleUser.id, 5, .purchase, purchaseDescription (some .monthly)⟩] })
    ∧ getCreditBalance
        (addCredits sampleStore "a@x.com" 5 (some .monthly) none sampleDate).2 "a@x.com"
        = sampleUser.credits + 5
    ∧ (applyCredit sampleUser 5 (some .monthly) sampleDate sampleUser).subscription_expires_at
        = some (addOneMonth sampleDate) := by
  have h := addCredits_spec sampleStore "a@x.com" 5 (some .monthly) sampleDate
    [] [] sampleUser rfl rfl rfl rfl rfl (by simp)
  exact ⟨h.1, h.2.2.1, (h.2.2.2.2.1 rfl).2⟩

/-- C10: `useCredits` never validates that the amount is positive. For a
negative amount A against an account with the nonnegative balance B the
data model intends, the guard `balance < A` passes, the call succeeds,
and it persists B − A > B while logging a usage transaction whose amount
−A is positive: a debit call that increases the balance. -/
theorem useCredits_negative_amount_spec
    (s : Store) (e : String) (A : Int) (now : Date) (pre post : List User) (u : User)
    (hr : s.readOk = true) (hw : s.writeOk = true) (hl : s.logOk = true)
    (hs : s.users = pre ++ u :: post) (hue : u.email = e)
    (hothers : ∀ v ∈ pre ++ post, v.email ≠ e)
    (hA : A < 0) (hB : 0 ≤ u.credits) :
    ¬(u.credits < A)
    ∧ useCredits s e A now =
      (.ok { u with credits := u.credits - A, updated_at := now },
       { s with
          users := pre ++ { u with credits := u.credits - A, updated_at := now } :: post,
          transactions := s.transactions ++ [⟨u.id, -A, .usage, "Image generation"⟩] })
    ∧ u.credits < u.credits - A
    ∧ 0 < -A := by
  have hle : A ≤ u.credits := le_trans (le_of_lt hA) hB
  exact ⟨not_lt.mpr hle, useCredits_ok s e A now pre post u hr hw hl hs hue hothers hle,
    by omega, by omega⟩

/-- Witness for C10: debiting −4 from the sample account with 5 credits
raises the balance to 9 and logs a usage row of +4. -/
theorem useCredits_negative_amount_spec_witness :
    ¬(sampleUser.credits < -4)
    ∧ useCredits sampleStore "a@x.com" (-4) sampleDate =
      (.ok { sampleUser with credits := sampleUser.credits - (-4), updated_at := sampleDate },
       { sampleStore with
          users := [{ sampleUser with credits := sampleUser.credits - (-4), updated_at := sampleDate }],
          transactions := sampleStore.transactions ++
            [⟨sampleUser.id, -(-4), .usage, "Image generation"⟩] })
    ∧ sampleUser.credits < sampleUser.credits - (-4)
    ∧ 0 < -(-4 : Int) :=
  useCredits_negative_amount_spec sampleStore "a@x.com" (-4) sampleDate [] [] sampleUser
    rfl rfl rfl rfl rfl (by simp) (by decide) (by decide)

/-! Lemmas about the webhook handlers. -/

/-- Whatever `signUpUser` does, it touches only the auth components of
the store: users, transactions and flags are preserved. -/
lemma signUpUser_shape (s : Store) (email : String) (password : Option String) :
    ∃ ae ni, (signUpUser s email password).2 =
      { s with authEmails := ae, nextAuthId := ni } := by
  unfold signUpUser
  rcases password with _ | pw
  · rcases getUserByEmail s email with e | u <;> exact ⟨s.authEmails, s.nextAuthId, rfl⟩
  · by_cases ha : s.authOk = true
    · by_cases hc : s.authEmails.contains email = true
      · rw [if_pos ha, if_pos hc]
        rcases getUserByEmail s email with e | u <;>
          exact ⟨s.authEmails, s.nextAuthId, rfl⟩
      · rw [if_pos ha, if_neg hc]
        exact ⟨email :: s.authEmails, s.nextAuthId + 1, rfl⟩
    · rw [if_neg ha]
      exact ⟨s.authEmails, s.nextAuthId, rfl⟩

/-- On a healthy read with a reachable auth admin API, `signUpUser` never
throws: it returns some auth id or null and touches only the auth
components of the store. -/
lemma signUpUser_ok (s : Store) (email : String) (password : Option String)
    (hr : s.readOk = true) (ha : s.authOk = true) :
    ∃ r ae ni, signUpUser s email password =
      (.ok r, { s with authEmails := ae, nextAuthId := ni }) := by
  unfold signUpUser
  have hread : ∃ u, getUserByEmail s email = .ok u := by
    unfold getUserByEmail
    rw [if_pos hr]
    rcases hfil : s.users.filter (fun v => v.email == email) with _ | ⟨a, _ | ⟨b, t⟩⟩
    · rw [hfil]
      exact ⟨none, rfl⟩
    · rw [hfil]
      exact ⟨some a, rfl⟩
    · rw [hfil]
      exact ⟨none, rfl⟩
  obtain ⟨u, hu⟩ := hread
  rcases password with _ | pw
  · rw [hu]
    exact ⟨u.map fun v => v.id, s.authEmails, s.nextAuthId, rfl⟩
  · rw [if_pos ha]
    by_cases hc : s.authEmails.contains email = true
    · rw [if_pos hc, hu]
      exact ⟨u.map fun v => v.id, s.authEmails, s.nextAuthId, rfl⟩
    · rw [if_neg hc]
      exact ⟨some ("auth-" ++ toString s.nextAuthId), email :: s.authEmails,
        s.nextAuthId + 1, rfl⟩

/-- Combined row update that a successful groovesell trial-start
processing performs: `addCredits` writes balance plus `TRIAL_CREDITS` and
the follow-up admin update writes the mapped subscription tier; the
subscription period and expiry columns are untouched. -/
def trialStepGS (cfg : ProductConfig) (now : Date) (u : User) : User :=
  { u with credits := u.credits + TRIAL_CREDITS, updated_at := now,
           subscription_tier := some cfg.tier }

/-- One successful groovesell trial-start processing against a healthy
store holding the account: the handler answers success, adds
`TRIAL_CREDITS` to the row, logs one purchase transaction, sets the
mapped subscription tier, and may touch the auth components. -/
lemma groovesell_trial_step
    (s : Store) (b : WebhookBody) (now : Date) (pre post : List User) (u : User)
    (e pid : String) (cfg : ProductConfig)
    (hr : s.readOk = true) (hw : s.writeOk = true) (hl : s.logOk = true)
    (hs : s.users = pre ++ u :: post) (hue : u.email = e)
    (hothers : ∀ v ∈ pre ++ post, v.email ≠ e ∧ v.id ≠ u.id)
    (hemail : b.buyer_email = some e) (hpid : b.product_id = some pid)
    (hcfg : PRODUCT_TIER_MAPPING pid = some cfg)
    (hev : b.event = some "subscription-trial-start")
    (htt : b.trial_transaction = some 1) :
    ∃ ae ni,
      groovesellPOST s b now =
        (⟨200, true, "Trial started: 3 credits added"⟩,
         { s with
            users := pre ++ trialStepGS cfg now u :: post,
            transactions := s.transactions ++
              [⟨u.id, TRIAL_CREDITS, .purchase, purchaseDescription none⟩],
            authEmails := ae, nextAuthId := ni }) := by
  obtain ⟨ae, ni, hsu⟩ := signUpUser_shape s e b.password
  refine ⟨ae, ni, ?_⟩
  have haddc := fun aid => addCredits_ok
    { s with authEmails := ae, nextAuthId := ni }
    e TRIAL_CREDITS none now pre post u
    aid hr hw hl hs hue hothers
  unfold groovesellPOST
  rw [hemail, hpid]
  simp only []
  rw [hcfg]
  simp only []
  rw [if_pos ⟨hev, htt⟩]
  simp only [hsu, haddc]
  unfold setTierById
  simp only [hw, if_true]
  have hupd :
      updWhere (fun v => v.id == (applyCredit u TRIAL_CREDITS none now u).id)
        (fun v => { v with subscription_tier := some cfg.tier, updated_at := now })
        (pre ++ applyCredit u TRIAL_CREDITS none now u :: post)
      = pre ++ trialStepGS cfg now u :: post :=
    updWhere_single
      (id_pred_false fun v hv => (hothers v (by simp [hv])).2)
      (id_pred_false fun v hv => (hothers v (by simp [hv])).2)
      (by simp)
  rw [hupd]

/-- One credits-route trial-start processing against a healthy store
(auth reachable) holding the account: the handler answers success, adds
`TRIAL_CREDITS`, logs one purchase transaction, touches no subscription
column, and may touch the auth components. -/
lemma creditsPOST_trial_step
    (s : Store) (b : WebhookBody) (now : Date) (pre post : List User) (u : User)
    (e : String)
    (hr : s.readOk = true) (hw : s.writeOk = true) (hl : s.logOk = true)
    (ha : s.authOk = true)
    (hs : s.users = pre ++ u :: post) (hue : u.email = e)
    (hothers : ∀ v ∈ pre ++ post, v.email ≠ e ∧ v.id ≠ u.id)
    (hemail : b.buyer_email = some e) (hact : b.action = none)
    (hev : b.event = some "subscription-trial-start") :
    ∃ ae ni,
      creditsPOST s b now =
        (⟨200, true, "Added credits"⟩,
         { s with
            users := pre ++ applyCredit u TRIAL_CREDITS none now u :: post,
            transactions := s.transactions ++
              [⟨u.id, TRIAL_CREDITS, .purchase, purchaseDescription none⟩],
            authEmails := ae, nextAuthId := ni }) := by
  obtain ⟨r, ae, ni, hsu⟩ := signUpUser_ok s e b.password hr ha
  refine ⟨ae, ni, ?_⟩
  have haddc := addCredits_ok
    { s with authEmails := ae, nextAuthId := ni }
    e TRIAL_CREDITS none now pre post u
    r hr hw hl hs hue hothers
  unfold creditsPOST
  rw [hemail]
  simp only []
  rw [hact]
  rw [if_neg (by simp)]
  rw [if_pos (Or.inl (by rw [hev]; rfl))]
  rw [if_pos hev]
  unfold creditsGrant
  rw [hsu]
  simp only []
  rw [haddc]

/-! Concrete webhook bodies used by the witness and counterexample
theorems. -/

/-- A trial-start webhook for the sample account with a known product. -/
def trialBody : WebhookBody :=
  { event := some "subscription-trial-start", buyer_email := some "a@x.com",
    product_id := some "90143", trial_transaction := some 1 }

/-- A zero-amount payment webhook carrying an unknown product id. -/
def zeroPayBody : WebhookBody :=
  { event := some "subscription-payment", buyer_email := some "a@x.com",
    product_id := some "99999", amount := some 0 }

/-- A zero-amount payment webhook carrying a known product id. -/
def zeroPayKnownBody : WebhookBody :=
  { event := some "subscription-payment", buyer_email := some "a@x.com",
    product_id := some "90143", amount := some 0 }

/-- A trial-start webhook for an email with no ledger account and no
password field. -/
def ghostTrialBody : WebhookBody :=
  { event := some "subscription-trial-start", buyer_email := some "ghost@x.com" }

/-- C6: processing the same trial-start webhook twice for the same email
is not deduplicated: each processing adds `TRIAL_CREDITS` again, so after
two processings the balance has increased by the trial amount twice. -/
theorem trial_webhook_not_idempotent_spec
    (s : Store) (b : WebhookBody) (now : Date) (pre post : List User) (u : User)
    (e pid : String) (cfg : ProductConfig)
    (hr : s.readOk = true) (hw : s.writeOk = true) (hl : s.logOk = true)
    (hs : s.users = pre ++ u :: post) (hue : u.email = e)
    (hothers : ∀ v ∈ pre ++ post, v.email ≠ e ∧ v.id ≠ u.id)
    (hemail : b.buyer_email = some e) (hpid : b.product_id = some pid)
    (hcfg : PRODUCT_TIER_MAPPING pid = some cfg)
    (hev : b.event = some "subscription-trial-start")
    (htt : b.trial_transaction = some 1) :
    getCreditBalance (groovesellPOST s b now).2 e = u.credits + TRIAL_CREDITS
    ∧ getCreditBalance (groovesellPOST (groovesellPOST s b now).2 b now).2 e
        = u.credits + TRIAL_CREDITS + TRIAL_CREDITS := by
  obtain ⟨ae, ni, h1⟩ :=
    groovesell_trial_step s b now pre post u e pid cfg
      hr hw hl hs hue hothers hemail hpid hcfg hev htt
  obtain ⟨ae2, ni2, h2⟩ := groovesell_trial_step
    { s with
        users := pre ++ trialStepGS cfg now u :: post,
        transactions := s.transactions ++
          [⟨u.id, TRIAL_CREDITS, .purchase, purchaseDescription none⟩],
        authEmails := ae, nextAuthId := ni }
    b now pre post (trialStepGS cfg now u) e pid cfg
    hr hw hl rfl hue hothers hemail hpid hcfg hev htt
  constructor
  · rw [h1]
    exact getCreditBalance_found _ e pre post
      (trialStepGS cfg now u) hr rfl hue (fun v hv => (hothers v hv).1)
  · rw [h1, h2]
    exact getCreditBalance_found _ e pre post
      (trialStepGS cfg now (trialStepGS cfg now u)) hr rfl hue
      (fun v hv => (hothers v hv).1)

/-- Witness for C6: two trial webhooks against the sample account take
the balance from 5 to 8 and then to 11. -/
theorem trial_webhook_not_idempotent_spec_witness :
    getCreditBalance (groovesellPOST sampleStore trialBody sampleDate).2 "a@x.com"
      = sampleUser.credits + TRIAL_CREDITS
    ∧ getCreditBalance
        (groovesellPOST (groovesellPOST sampleStore trialBody sampleDate).2
          trialBody sampleDate).2 "a@x.com"
      = sampleUser.credits + TRIAL_CREDITS + TRIAL_CREDITS :=
  trial_webhook_not_idempotent_spec sampleStore trialBody sampleDate [] [] sampleUser
    "a@x.com" "90143" ⟨.basic, 5, 60⟩
    rfl rfl rfl rfl rfl (by simp) rfl rfl (by decide) rfl rfl

/-- C7 counterexample: the sample account has no subscription tier; one
trial-start webhook through the groovesell handler grants the 3 trial
credits but ALSO writes `subscription_tier = basic` from the product
mapping, so the claim that no subscription tier is set is false. -/
theorem trial_sets_tier_counterexample :
    sampleUser.subscription_tier = none
    ∧ getCreditBalance (groovesellPOST sampleStore trialBody sampleDate).2 "a@x.com"
        = sampleUser.credits + TRIAL_CREDITS
    ∧ getUserByEmail (groovesellPOST sampleStore trialBody sampleDate).2 "a@x.com"
        = .ok (some (trialStepGS ⟨.basic, 5, 60⟩ sampleDate sampleUser))
    ∧ (trialStepGS ⟨.basic, 5, 60⟩ sampleDate sampleUser).subscription_tier
        = some .basic := by
  exact ⟨rfl, by decide, rfl, rfl⟩

/-- C7 amended: a trial-start event grants exactly `TRIAL_CREDITS` and
leaves the subscription period untouched; the groovesell handler
additionally sets the subscription tier to the product-mapped tier, while
the credits-route handler leaves tier and period both untouched. -/
theorem trial_grant_spec
    (s : Store) (now : Date) (pre post : List User) (u : User)
    (e : String) (cfg : ProductConfig)
    (hr : s.readOk = true) (hw : s.writeOk = true) (hl : s.logOk = true)
    (ha : s.authOk = true)
    (hs : s.users = pre ++ u :: post) (hue : u.email = e)
    (hothers : ∀ v ∈ pre ++ post, v.email ≠ e ∧ v.id ≠ u.id) :
    (∀ b pid, b.buyer_email = some e → b.product_id = some pid →
      PRODUCT_TIER_MAPPING pid = some cfg →
      b.event = some "subscription-trial-start" → b.trial_transaction = some 1 →
      getCreditBalance (groovesellPOST s b now).2 e = u.credits + TRIAL_CREDITS
      ∧ getUserByEmail (groovesellPOST s b now).2 e
          = .ok (some (trialStepGS cfg now u))
      ∧ (trialStepGS cfg now u).subscription_type = u.subscription_type
      ∧ (trialStepGS cfg now u).subscription_tier = some cfg.tier)
    ∧ (∀ b, b.buyer_email = some e → b.action = none →
      b.event = some "subscription-trial-start" →
      getCreditBalance (creditsPOST s b now).2 e = u.credits + TRIAL_CREDITS
      ∧ getUserByEmail (creditsPOST s b now).2 e
          = .ok (some (applyCredit u TRIAL_CREDITS none now u))
      ∧ (applyCredit u TRIAL_CREDITS none now u).subscription_type
          = u.subscription_type
      ∧ (applyCredit u TRIAL_CREDITS none now u).subscription_tier
          = u.subscription_tier) := by
  constructor
  · intro b pid hemail hpid hcfg hev htt
    obtain ⟨ae, ni, h1⟩ :=
      groovesell_trial_step s b now pre post u e pid cfg
        hr hw hl hs hue hothers hemail hpid hcfg hev htt
    rw [h1]
    exact ⟨getCreditBalance_found _ e pre post
        (trialStepGS cfg now u) hr rfl hue (fun v hv => (hothers v hv).1),
      getUserByEmail_found _ e pre post
        (trialStepGS cfg now u) hr rfl hue (fun v hv => (hothers v hv).1),
      rfl, rfl⟩
  · intro b hemail hact hev
    obtain ⟨ae, ni, h1⟩ :=
      creditsPOST_trial_step s b now pre post u e
        hr hw hl ha hs hue hothers hemail hact hev
    rw [h1]
    exact ⟨getCreditBalance_found _ e pre post
        (applyCredit u TRIAL_CREDITS none now u) hr rfl hue
        (fun v hv => (hothers v hv).1),
      getUserByEmail_found _ e pre post
        (applyCredit u TRIAL_CREDITS none now u) hr rfl hue
        (fun v hv => (hothers v hv).1),
      rfl, rfl⟩

/-- Witness for the amended C7 at the sample account: the groovesell
handler grants 3 and writes tier basic, the credits-route handler grants
3 and writes no subscription column. -/
theorem trial_grant_spec_witness :
    getCreditBalance (groovesellPOST sampleStore trialBody sampleDate).2 "a@x.com"
      = sampleUser.credits + TRIAL_CREDITS
    ∧ (trialStepGS ⟨.basic, 5, 60⟩ sampleDate sampleUser).subscription_tier
        = some Tier.basic
    ∧ getCreditBalance (creditsPOST sampleStore trialBody sampleDate).2 "a@x.com"
      = sampleUser.credits + TRIAL_CREDITS
    ∧ (applyCredit sampleUser TRIAL_CREDITS none sampleDate sampleUser).subscription_tier
      = sampleUser.subscription_tier := by
  have h := trial_grant_spec sampleStore sampleDate [] [] sampleUser "a@x.com"
    ⟨.basic, 5, 60⟩ rfl rfl rfl rfl rfl rfl (by simp)
  have h1 := h.1 trialBody "90143" rfl rfl (by decide) rfl rfl
  have h2 := h.2 trialBody rfl rfl rfl
  exact ⟨h1.1, h1.2.2.2, h2.1, h2.2.2.2⟩

/-- C8 counterexample: a payment webhook with amount 0 but an unknown
product id is answered by the groovesell handler with a 400 error
response, not a success acknowledgment (the store is still untouched). -/
theorem zero_payment_unknown_product_counterexample :
    groovesellPOST sampleStore zeroPayBody sampleDate
      = (⟨400, false, "Unknown product ID: 99999"⟩, sampleStore)
    ∧ (groovesellPOST sampleStore zeroPayBody sampleDate).1.status ≠ 200
    ∧ (groovesellPOST sampleStore zeroPayBody sampleDate).1.success = false := by
  exact ⟨by decide, by decide, by decide⟩

/-- C8 amended: once a request passes the handler's validation (buyer
email present, and for the groovesell handler a known product id), a
zero-amount payment event and any unrecognized event type are
acknowledged with success and cause no store change; a request failing
product validation is answered 400 (still with no store change). -/
theorem ignored_event_noop_spec
    (s : Store) (b : WebhookBody) (now : Date) (e : String)
    (hemail : b.buyer_email = some e) :
    (∀ pid cfg, b.product_id = some pid → PRODUCT_TIER_MAPPING pid = some cfg →
      ¬(b.event = some "subscription-trial-start" ∧ b.trial_transaction = some 1) →
      ¬(b.event = some "subscription-payment" ∧ 0 < parseFloatOr0 b.amount) →
      groovesellPOST s b now
        = (⟨200, true, "Event acknowledged but not processed"⟩, s))
    ∧ (∀ pid, b.product_id = some pid → PRODUCT_TIER_MAPPING pid = none →
      groovesellPOST s b now
        = (⟨400, false, "Unknown product ID: " ++ pid⟩, s))
    ∧ (b.event.isSome → b.event ≠ some "subscription-trial-start" →
      ¬(b.event = some "subscription-payment" ∧ 0 < parseFloatOr0 b.amount) →
      b.action ≠ some "get_balance" → b.action ≠ some "add_credits" →
      creditsPOST s b now = (⟨200, true, "Event ignored - no credits added"⟩, s)) := by
  refine ⟨fun pid cfg hpid hcfg h1 h2 => ?_, fun pid hpid hcfg => ?_,
    fun hev hne hpay hgb hac => ?_⟩
  · unfold groovesellPOST
    rw [hemail, hpid]
    simp only []
    rw [hcfg]
    simp only []
    rw [if_neg h1, if_neg h2]
  · unfold groovesellPOST
    rw [hemail, hpid]
    simp only []
    rw [hcfg]
  · unfold creditsPOST
    rw [hemail]
    simp only []
    rw [if_neg hgb, if_pos (Or.inl hev), if_neg hne, if_neg hpay, if_neg hac]

/-- Witness for the amended C8: a zero-amount payment with a known
product id is acknowledged and ignored by both handlers, store
unchanged. -/
theorem ignored_event_noop_spec_witness :
    groovesellPOST sampleStore zeroPayKnownBody sampleDate
      = (⟨200, true, "Event acknowledged but not processed"⟩, sampleStore)
    ∧ creditsPOST sampleStore zeroPayKnownBody sampleDate
      = (⟨200, true, "Event ignored - no credits added"⟩, sampleStore) := by
  have h := ignored_event_noop_spec sampleStore zeroPayKnownBody sampleDate
    "a@x.com" rfl
  exact ⟨h.1 "90143" ⟨.basic, 5, 60⟩ rfl (by decide) (by decide) (by decide),
    h.2.2 rfl (by decide) (by decide) (by decide) (by decide)⟩

/-- C9 counterexample: a trial-start webhook for an unknown email with no
password makes the credits-route handler raise USER_NOT_FOUND internally,
and the handler answers with a 500 error-status response, not a
success-shaped one. -/
theorem credits_route_error_status_counterexample :
    creditsPOST sampleStore ghostTrialBody sampleDate
      = (⟨500, false, "User not found and no auth ID provided"⟩, sampleStore)
    ∧ (creditsPOST sampleStore ghostTrialBody sampleDate).1.status = 500
    ∧ (creditsPOST sampleStore ghostTrialBody sampleDate).1.success = false := by
  exact ⟨by decide, by decide, by decide⟩

/-- C9 amended: the groovesell webhook handler answers every request that
passes field validation with a success-shaped 200 response, whatever the
store state — internal processing errors included (the catch-all maps
them to `groovesellCatchResp`); the credits-route handler instead
answers internal errors with a 500 error response. -/
theorem groovesell_success_shaped_spec
    (s : Store) (b : WebhookBody) (now : Date) (e pid : String) (cfg : ProductConfig)
    (hemail : b.buyer_email = some e) (hpid : b.product_id = some pid)
    (hcfg : PRODUCT_TIER_MAPPING pid = some cfg) :
    (groovesellPOST s b now).1.status = 200
    ∧ (groovesellPOST s b now).1.success = true := by
  unfold groovesellPOST
  rw [hemail, hpid]
  simp only []
  rw [hcfg]
  simp only []
  constructor <;>
  · split
    · split <;> rfl
    · split
      · split <;> rfl
      · rfl

/-- Witness for the amended C9: the trial webhook against the sample
store is answered 200/success, and so is the same webhook against a
store whose write path is down (an internal ADD_CREDITS_ERROR). -/
theorem groovesell_success_shaped_spec_witness :
    (groovesellPOST sampleStore trialBody sampleDate).1.status = 200
    ∧ (groovesellPOST sampleStore trialBody sampleDate).1.success = true
    ∧ (groovesellPOST { sampleStore with writeOk := false } trialBody sampleDate).1.status = 200
    ∧ (groovesellPOST { sampleStore with writeOk := false } trialBody sampleDate).1.success = true := by
  have h1 := groovesell_success_shaped_spec sampleStore trialBody sampleDate
    "a@x.com" "90143" ⟨.basic, 5, 60⟩ rfl rfl (by decide)
  have h2 := groovesell_success_shaped_spec { sampleStore with writeOk := false }
    trialBody sampleDate "a@x.com" "90143" ⟨.basic, 5, 60⟩ rfl rfl (by decide)
  exact ⟨h1.1, h1.2, h2.1, h2.2⟩

end ColPage
